import Mathlib

/-!
# Verification of the Si7021 humidity/temperature sensor driver

Shallow embedding of `src/src/Si7021.cpp` (single-file Arduino driver for the
Si7021 sensor) and proofs about it.

The two-wire bus transport (`Wire`) is external to the repository; it is
modelled as an abstract response stream: a function giving the number of
available bytes at each iteration of the polling loop of the driver, together with
the sequence of bytes successive `Wire.read()` calls return.  Machine
integers are modelled as `Nat` with explicit `% 2^w` truncation at the points
where the C code narrows a value, and the `float` transfer functions are
modelled over `ℚ` (exact real-valued semantics of the datasheet formulas).
-/

namespace Si7021

/-- Modelled from the spec: the device bus address `SI7021_ADDRESS` is defined
in the header `Si7021.h`, which is not part of `src/`; the spec fixes it as a
constant 7-bit address (0x40 per the Si7021 datasheet). -/
def SI7021_ADDRESS : Nat := 0x40

/-- Modelled from the spec: command byte for "measure humidity, no hold master
mode", defined in the missing header `Si7021.h` (0xF5 per datasheet). -/
def SI7021_MEASURE_HUMIDIY_NO_HOLD_MASTER_MODE : Nat := 0xF5

/-- Modelled from the spec: command byte for "measure temperature, no hold
master mode", defined in the missing header `Si7021.h` (0xF3 per datasheet). -/
def SI7021_MEASURE_TEMPERATURE_NO_HOLD_MASTER_MODE : Nat := 0xF3

/-- Modelled from the spec: command byte for "read temperature from previous
RH measurement", defined in the missing header `Si7021.h` (0xE0 per
datasheet). -/
def SI7021_READ_TEMPERATURE_FROM_PREVIOUS_RH_MEASUREMENT : Nat := 0xE0

/-- Modelled from the spec: reset command byte, defined in the missing header
`Si7021.h` (0xFE per datasheet). -/
def SI7021_RESET : Nat := 0xFE

/-- Modelled from the spec: command byte to read the user configuration
register, defined in the missing header `Si7021.h` (0xE7 per datasheet). -/
def SI7021_READ_USER_REGISTER : Nat := 0xE7

/-- Modelled from the spec: command byte to write the user configuration
register, defined in the missing header `Si7021.h` (0xE6 per datasheet). -/
def SI7021_WRITE_USER_REGISTER : Nat := 0xE6

/-- Modelled from the spec: command byte to read the heater control register,
defined in the missing header `Si7021.h` (0x11 per datasheet). -/
def SI7021_READ_HEATER_CONTROL_REGISTER : Nat := 0x11

/-- Modelled from the spec: command byte to write the heater control register,
defined in the missing header `Si7021.h` (0x51 per datasheet). -/
def SI7021_WRITE_HEATER_CONTROL_REGISTER : Nat := 0x51

/-- Modelled from the spec: `SI7021_READ_TIMEOUT`, the bound on the number of
1 ms polling increments in `readSensor`, is defined in the missing header
`Si7021.h`; the spec only states that it is a fixed compiled-in bound.  The
value chosen here is representative; no theorem below depends on it being 25
(the supporting lemma `pollWait_true_iff` is proved for an arbitrary bound). -/
def SI7021_READ_TIMEOUT : Nat := 25

/-- Abstract model of the `Wire` two-wire bus transport during one
`readSensor` transaction: `avail k` is the value `Wire.available()` returns at
the `k`-th iteration of the polling loop, and `stream n` is the byte returned
by the `n`-th call to `Wire.read()` after the poll succeeds. -/
structure Transport where
  avail : Nat → Nat
  stream : Nat → Nat

/-- The polling loop of `Si7021::readSensor` (Si7021.cpp lines 47–55):

```c
while (Wire.available() < returnSize){
    delay(1);
    timeout++;
    if(timeout > SI7021_READ_TIMEOUT){ return 1; }
}
```

`k` is the current value of the `timeout` counter (0 at the first availability
check).  Returns `true` when data became available, `false` on timeout: the
loop gives up after the check with `timeout = timeLimit` fails.  (The C
counter is a `uint8_t`; its wrap-around is immaterial for any timeout bound
≤ 254, which the fixed header constant satisfies.) -/
def pollWait (avail : Nat → Nat) (returnSize : Nat) (timeLimit : Nat) (k : Nat) : Bool :=
  if returnSize ≤ avail k then true
  else if timeLimit < k + 1 then false
  else pollWait avail returnSize timeLimit (k + 1)
termination_by timeLimit + 1 - k
decreasing_by omega

/-- Shallow embedding of `Si7021::readSensor` (Si7021.cpp lines 31–69).
After a successful poll the code reads `uint16_t msb = Wire.read();`,
`uint8_t lsb = Wire.read();`, reads and discards a third checksum byte when
`returnSize >= 3` (no effect on the value), clears the two low bits of `lsb`
with `lsb &= 0xFC;`, and returns `(uint16_t)((msb << 8) | lsb)`.  On timeout
it returns the sentinel `1`.  The command byte `instr` selects the operation
on the wire but does not enter the value computation. -/
def readSensor (t : Transport) (instr : Nat) (returnSize : Nat) : Nat :=
  if pollWait t.avail returnSize SI7021_READ_TIMEOUT 0 then
    let msb : Nat := t.stream 0 % 65536
    let lsb : Nat := (t.stream 1 % 256) &&& 0xFC
    ((msb <<< 8) ||| lsb) % 65536
  else 1

/-- The polling loop succeeds iff some availability check within the bounded
window (counter values `k`, …, `timeLimit`) sees enough bytes. -/
lemma pollWait_true_iff (avail : Nat → Nat) (rs timeLimit : Nat) :
    ∀ d k, timeLimit - k ≤ d → k ≤ timeLimit →
      (pollWait avail rs timeLimit k = true ↔
        ∃ j, k ≤ j ∧ j ≤ timeLimit ∧ rs ≤ avail j) := by
  intro d
  induction d with
  | zero =>
    intro k hd hk
    have hkT : k = timeLimit := by omega
    rw [pollWait]
    by_cases h : rs ≤ avail k
    · simp only [if_pos h, true_iff]
      exact ⟨k, Nat.le_refl _, hk, h⟩
    · have hlt : timeLimit < k + 1 := by omega
      simp only [if_neg h, if_pos hlt]
      constructor
      · intro hfalse; exact absurd hfalse (by simp)
      · rintro ⟨j, hkj, hjT, hj⟩
        have : j = k := by omega
        subst this
        exact absurd hj h
  | succ d ih =>
    intro k hd hk
    rw [pollWait]
    by_cases h : rs ≤ avail k
    · simp only [if_pos h, true_iff]
      exact ⟨k, Nat.le_refl _, hk, h⟩
    · simp only [if_neg h]
      by_cases hT : timeLimit < k + 1
      · simp only [if_pos hT]
        constructor
        · intro hfalse; exact absurd hfalse (by simp)
        · rintro ⟨j, hkj, hjT, hj⟩
          have : j = k := by omega
          subst this
          exact absurd hj h
      · simp only [if_neg hT]
        rw [ih (k + 1) (by omega) (by omega)]
        constructor
        · rintro ⟨j, hkj, hjT, hj⟩
          exact ⟨j, by omega, hjT, hj⟩
        · rintro ⟨j, hkj, hjT, hj⟩
          refine ⟨j, ?_, hjT, hj⟩
          rcases Nat.eq_or_lt_of_le hkj with rfl | hlt
          · exact absurd hj h
          · omega

/-- The value assembled on the success path of `readSensor` has its two low
bits clear: bit 0 and bit 1 of `(msb << 8) | (lsb & 0xFC)` are both zero. -/
lemma readValue_and_three (m x : Nat) :
    ((((m % 65536) <<< 8) ||| ((x % 256) &&& 0xFC)) % 65536) &&& 3 = 0 := by
  apply Nat.eq_of_testBit_eq
  intro i
  rw [show (65536 : Nat) = 2 ^ 16 from by norm_num]
  rw [Nat.testBit_and, Nat.zero_testBit, Nat.testBit_mod_two_pow,
    Nat.testBit_lor, Nat.testBit_shiftLeft, Nat.testBit_and]
  match i with
  | 0 => simp [(by decide : Nat.testBit 0xFC 0 = false)]
  | 1 => simp [(by decide : Nat.testBit 0xFC 1 = false)]
  | (i + 2) =>
    have h3 : Nat.testBit 3 (i + 2) = false :=
      Nat.testBit_lt_two_pow (by
        calc (3 : Nat) < 2 ^ 2 := by norm_num
        _ ≤ 2 ^ (i + 2) := Nat.pow_le_pow_right (by norm_num) (by omega))
    simp [h3]

/-- C1: `readSensor` returns the sentinel raw value `1` exactly when the
available byte count of the transport never reaches `returnSize` at any of the
availability checks within the bounded polling window (counter values `0`
through `SI7021_READ_TIMEOUT`); in particular no stream that delivers the
expected bytes in time can make it return `1`. -/
theorem readSensor_eq_one_iff (t : Transport) (instr rs : Nat) :
    readSensor t instr rs = 1 ↔ ∀ k, k ≤ SI7021_READ_TIMEOUT → t.avail k < rs := by
  rw [readSensor]
  by_cases h : pollWait t.avail rs SI7021_READ_TIMEOUT 0 = true
  · rw [if_pos h]
    have hval := readValue_and_three (t.stream 0) (t.stream 1)
    constructor
    · intro h1
      rw [h1] at hval
      exact absurd hval (by decide)
    · intro hall
      exfalso
      obtain ⟨j, _, hjT, hj⟩ :=
        (pollWait_true_iff t.avail rs SI7021_READ_TIMEOUT
          (SI7021_READ_TIMEOUT - 0) 0 (Nat.le_refl _) (Nat.zero_le _)).mp h
      exact absurd hj (Nat.not_le.mpr (hall j hjT))
  · rw [if_neg h]
    constructor
    · intro _ k hk
      by_contra hcon
      exact h ((pollWait_true_iff t.avail rs SI7021_READ_TIMEOUT
        (SI7021_READ_TIMEOUT - 0) 0 (Nat.le_refl _) (Nat.zero_le _)).mpr
        ⟨k, Nat.zero_le _, hk, Nat.le_of_not_lt hcon⟩)
    · intro _
      rfl

/-- C2: on every transport stream on which `readSensor` does not time out, the
returned raw value has its two low bits clear (`r &&& 0x0003 = 0`), and it is
exactly `(msb << 8) | lsb` with the two low bits of the least significant byte
cleared before assembly. -/
theorem readSensor_success_low_bits (t : Transport) (instr rs : Nat)
    (h : ∃ j, j ≤ SI7021_READ_TIMEOUT ∧ rs ≤ t.avail j) :
    readSensor t instr rs &&& 0x0003 = 0 ∧
      readSensor t instr rs =
        (((t.stream 0 % 65536) <<< 8) ||| ((t.stream 1 % 256) &&& 0xFC)) % 65536 := by
  have hpoll : pollWait t.avail rs SI7021_READ_TIMEOUT 0 = true := by
    obtain ⟨j, hjT, hj⟩ := h
    exact (pollWait_true_iff t.avail rs SI7021_READ_TIMEOUT
      (SI7021_READ_TIMEOUT - 0) 0 (Nat.le_refl _) (Nat.zero_le _)).mpr
      ⟨j, Nat.zero_le _, hjT, hj⟩
  rw [readSensor, if_pos hpoll]
  exact ⟨readValue_and_three (t.stream 0) (t.stream 1), rfl⟩

/-- A concrete transport stream that always has 3 bytes available and answers
`0x6B`, `0xE6`, `0xFF`, … on successive reads; used to witness the success
path of `readSensor`. -/
def readyTransport : Transport :=
  ⟨fun _ => 3, fun n => if n = 0 then 0x6B else if n = 1 then 0xE6 else 0xFF⟩

/-- Witness for C2: on `readyTransport` the success hypothesis holds and the
conclusion evaluates. -/
theorem readSensor_success_low_bits_witness :
    readSensor readyTransport SI7021_MEASURE_TEMPERATURE_NO_HOLD_MASTER_MODE 3 &&& 0x0003 = 0 ∧
      readSensor readyTransport SI7021_MEASURE_TEMPERATURE_NO_HOLD_MASTER_MODE 3 =
        (((readyTransport.stream 0 % 65536) <<< 8) |||
          ((readyTransport.stream 1 % 256) &&& 0xFC)) % 65536 :=
  readSensor_success_low_bits readyTransport
    SI7021_MEASURE_TEMPERATURE_NO_HOLD_MASTER_MODE 3 ⟨0, by decide, by decide⟩

/-- The Si7021 datasheet temperature transfer function used on both
temperature paths (Si7021.cpp lines 78 and 108):
`175.25f * dword / 65536.0f - 46.85f`, modelled exactly over `ℚ`. -/
def temperatureFromRaw (raw : Nat) : ℚ := 175.25 * raw / 65536 - 46.85

/-- The Si7021 datasheet humidity transfer function (Si7021.cpp line 96):
`125.0f * dword / 65536.0f - 6.0f`, modelled exactly over `ℚ`. -/
def humidityFromRaw (raw : Nat) : ℚ := 125 * raw / 65536 - 6

/-- Embedding of `Si7021::measureTemperature` (Si7021.cpp lines 76–79): issues the
temperature measurement command expecting 3 bytes and applies the datasheet
transfer function. -/
def measureTemperature (t : Transport) : ℚ :=
  temperatureFromRaw (readSensor t SI7021_MEASURE_TEMPERATURE_NO_HOLD_MASTER_MODE 3)

/-- Embedding of `Si7021::measureTemperatureF` (Si7021.cpp lines 86–88):
`return this->measureTemperature() * 1.8f + 32.0f;`. -/
def measureTemperatureF (t : Transport) : ℚ :=
  measureTemperature t * 1.8 + 32

/-- Embedding of `Si7021::measureHumidity` (Si7021.cpp lines 94–97). -/
def measureHumidity (t : Transport) : ℚ :=
  humidityFromRaw (readSensor t SI7021_MEASURE_HUMIDIY_NO_HOLD_MASTER_MODE 3)

/-- Embedding of `Si7021::getTemperatureFromPreviousHumidityMeasurement` (Si7021.cpp lines
106–109): reads the temperature of the previous RH conversion, expecting 2
bytes (no checksum), and applies the temperature transfer function. -/
def getTemperatureFromPreviousHumidityMeasurement (t : Transport) : ℚ :=
  temperatureFromRaw
    (readSensor t SI7021_READ_TEMPERATURE_FROM_PREVIOUS_RH_MEASUREMENT 2)

/-- Embedding of `Si7021::getTemperatureFromPreviousHumidityMeasurementF` (Si7021.cpp lines
117–119).  The C body is
`return getTemperatureFromPreviousHumidityMeasurementF() * 1.8f + 32.0f;` —
it calls **itself**, not the Celsius variant, so the call never returns.  The
non-terminating recursion is embedded with an explicit fuel parameter bounding
the recursion depth: `none` means the computation did not produce a value
within the given depth. -/
def getTemperatureFromPreviousHumidityMeasurementF (fuel : Nat) : Option ℚ :=
  match fuel with
  | 0 => none
  | Nat.succ n =>
    Option.map (fun c => c * 1.8 + 32) (getTemperatureFromPreviousHumidityMeasurementF n)

/-- C5 (code bug): for every recursion depth, the self-recursive
`getTemperatureFromPreviousHumidityMeasurementF` produces no value — it never
delegates to `getTemperatureFromPreviousHumidityMeasurement` and never
returns, contradicting its documented contract (a °F wrapper around the
Celsius variant). -/
theorem getTemperatureFromPreviousHumidityMeasurementF_never_returns (fuel : Nat) :
    getTemperatureFromPreviousHumidityMeasurementF fuel = none := by
  induction fuel with
  | zero => rfl
  | succ n ih => rw [getTemperatureFromPreviousHumidityMeasurementF, ih]; rfl

/-- C7: `measureTemperature` converts its raw reading via
`175.25 * raw / 65536 - 46.85`; the conversion yields exactly `-46.85` at
`raw = 0` and a value within `0.003` of `128.4` at `raw = 65535`. -/
theorem measureTemperature_conversion :
    (∀ t : Transport,
      measureTemperature t =
        temperatureFromRaw (readSensor t SI7021_MEASURE_TEMPERATURE_NO_HOLD_MASTER_MODE 3)) ∧
    temperatureFromRaw 0 = -46.85 ∧
    |temperatureFromRaw 65535 - 128.4| < 3 / 1000 := by
  refine ⟨fun t => rfl, by norm_num [temperatureFromRaw], ?_⟩
  rw [abs_lt]
  constructor <;> norm_num [temperatureFromRaw]

/-- C8: the Fahrenheit measurement path is exactly the Celsius path composed
with the °C→°F conversion, for every transport response stream. -/
theorem measureTemperatureF_eq (t : Transport) :
    measureTemperatureF t = measureTemperature t * 1.8 + 32 := rfl

/-- A register-level bus transaction performed by the driver:
`regRead addr value` models `readRegister(addr)` returning `value` from the
device, `regWrite addr value` models `writeRegister(addr, value)`. -/
inductive BusOp where
  | regRead : Nat → Nat → BusOp
  | regWrite : Nat → Nat → BusOp
deriving DecidableEq

/-- Embedding of `Si7021::setHeater` (Si7021.cpp lines 198–222), modelled as the sequence
of register transactions it performs.  `heaterReg` and `userReg` are the bytes
the device returns for the heater-control-register read and the user-register
read (`% 256`: `readRegister` returns them through a `uint8_t` buffer).  When
enabling, the code does `reg |= (power & 0x0F)` on the heater register and
`reg |= 0x04` on the user register; when disabling it does `reg &= 0xFB` on
the user register only.  (The C parameter is named `on`, a reserved token
here, so it is rendered `heaterOn`.) -/
def setHeater (heaterOn : Bool) (power : Nat) (heaterReg userReg : Nat) : List BusOp :=
  if heaterOn then
    [BusOp.regRead SI7021_READ_HEATER_CONTROL_REGISTER (heaterReg % 256),
     BusOp.regWrite SI7021_WRITE_HEATER_CONTROL_REGISTER
       ((heaterReg % 256) ||| ((power % 256) &&& 0x0F)),
     BusOp.regRead SI7021_READ_USER_REGISTER (userReg % 256),
     BusOp.regWrite SI7021_WRITE_USER_REGISTER ((userReg % 256) ||| 0x04)]
  else
    [BusOp.regRead SI7021_READ_USER_REGISTER (userReg % 256),
     BusOp.regWrite SI7021_WRITE_USER_REGISTER ((userReg % 256) &&& 0xFB)]

/-- The `switch (resolution)` of `Si7021::setSensorResolution` (Si7021.cpp
lines 270–281): `case 1` ORs in `0x01`, `case 2` ORs in `0x80`, `case 3` ORs
in `0x81` and then falls through into the empty `default` (no further
effect), every other value hits the empty `default` and ORs in nothing. -/
def resolutionBits (resolution : Nat) : Nat :=
  if resolution = 0x01 then 0x01
  else if resolution = 0x02 then 0x80
  else if resolution = 0x03 then 0x81
  else 0x00

/-- Embedding of `Si7021::setSensorResolution` (Si7021.cpp lines 253–286), modelled as its
register transactions: read the user register, clear bits D7 and D0 with
`reg &= 0x7E`, OR in the pattern selected by the `switch`, write it back.
`resolution` is a `uint8_t` parameter, hence the `% 256`. -/
def setSensorResolution (resolution userReg : Nat) : List BusOp :=
  [BusOp.regRead SI7021_READ_USER_REGISTER (userReg % 256),
   BusOp.regWrite SI7021_WRITE_USER_REGISTER
     (((userReg % 256) &&& 0x7E) ||| resolutionBits (resolution % 256))]

lemma testBit_and_lor_mask (u a b i : Nat) (ha : Nat.testBit a i = true)
    (hb : Nat.testBit b i = false) : ((u &&& a) ||| b).testBit i = u.testBit i := by
  rw [Nat.testBit_lor, Nat.testBit_and, ha, hb, Bool.and_true, Bool.or_false]

lemma testBit_mask_of_ge (a i n : Nat) (ha : a < 2 ^ n) (hi : n ≤ i) :
    Nat.testBit a i = false :=
  Nat.testBit_lt_two_pow (lt_of_lt_of_le ha (Nat.pow_le_pow_right (by norm_num) hi))

/-- C3 counterexample: with prior heater-control value `0x0F` and
`power = 0`, the value written back to the heater-control register is `0x0F`,
whose low 4 bits (`0x0F`) differ from `power &&& 0x0F = 0`: the claim that the
low nibble of the written value always equals `power &&& 0x0F` is false. -/
theorem setHeater_low_bits_counterexample :
    BusOp.regWrite SI7021_WRITE_HEATER_CONTROL_REGISTER 0x0F ∈ setHeater true 0 0x0F 0x3A ∧
      ¬((0x0F : Nat) &&& 0x0F = (0 : Nat) &&& 0x0F) := by decide

/-- C3 (amended): `setHeater true power` writes back to the heater-control
register the value `h ||| (power &&& 0x0F)` — the prior value with the low 4
bits of `power` OR-ed in.  Its low 4 bits are `(h &&& 0x0F) ||| (power &&&
0x0F)` (not `power &&& 0x0F` alone), bits of `power` above the low 4 are
ignored, and the upper 4 bits of the prior value are unchanged. -/
theorem setHeater_enable_heater_write (power h u : Nat) (hh : h < 256) :
    BusOp.regWrite SI7021_WRITE_HEATER_CONTROL_REGISTER
        (h ||| ((power % 256) &&& 0x0F)) ∈ setHeater true power h u ∧
      (h ||| ((power % 256) &&& 0x0F)) &&& 0x0F = (h &&& 0x0F) ||| (power &&& 0x0F) ∧
      (h ||| ((power % 256) &&& 0x0F)) >>> 4 = h >>> 4 := by
  refine ⟨?_, ?_, ?_⟩
  · simp [setHeater, Nat.mod_eq_of_lt hh]
  · apply Nat.eq_of_testBit_eq
    intro i
    rw [Nat.testBit_and, Nat.testBit_lor, Nat.testBit_lor, Nat.testBit_and,
      Nat.testBit_and, Nat.testBit_and]
    by_cases hi : i < 4
    · have hp : (power % 256).testBit i = power.testBit i := by
        rw [show (256 : Nat) = 2 ^ 8 from by norm_num, Nat.testBit_mod_two_pow]
        simp [show i < 8 from by omega]
      have ht : Nat.testBit 0x0F i = true := by interval_cases i <;> decide
      rw [hp, ht]
      simp
    · have ht : Nat.testBit 0x0F i = false :=
        testBit_mask_of_ge 0x0F i 4 (by norm_num) (Nat.le_of_not_lt hi)
      rw [ht]
      simp
  · apply Nat.eq_of_testBit_eq
    intro i
    rw [Nat.testBit_shiftRight, Nat.testBit_shiftRight, Nat.testBit_lor, Nat.testBit_and]
    have ht : Nat.testBit 0x0F (4 + i) = false :=
      testBit_mask_of_ge 0x0F (4 + i) 4 (by norm_num) (by omega)
    rw [ht]
    simp

/-- Witness for C3 (amended) at `power = 0x27`, prior heater value `0x05`. -/
theorem setHeater_enable_heater_write_witness :
    (0x05 : Nat) < 256 ∧
      (BusOp.regWrite SI7021_WRITE_HEATER_CONTROL_REGISTER
          (0x05 ||| ((0x27 % 256) &&& 0x0F)) ∈ setHeater true 0x27 0x05 0x3A ∧
        ((0x05 : Nat) ||| ((0x27 % 256) &&& 0x0F)) &&& 0x0F =
          ((0x05 : Nat) &&& 0x0F) ||| ((0x27 : Nat) &&& 0x0F) ∧
        ((0x05 : Nat) ||| ((0x27 % 256) &&& 0x0F)) >>> 4 = (0x05 : Nat) >>> 4) :=
  ⟨by decide, setHeater_enable_heater_write 0x27 0x05 0x3A (by decide)⟩

/-- C4: for `k ∈ {0,1,2,3}` and any prior user-register byte `u`,
`setSensorResolution k` reads the user register and writes back
`(u &&& 0x7E) ||| pattern k` with the pattern table
`{0 ↦ 0x00, 1 ↦ 0x01, 2 ↦ 0x80, 3 ↦ 0x81}` (the `case 3` fallthrough into
the empty `default` has no effect); all bits other than bit 7 and bit 0 are
unchanged from the prior value. -/
theorem setSensorResolution_table (k u : Nat) (hk : k ≤ 3) (hu : u < 256) :
    setSensorResolution k u =
      [BusOp.regRead SI7021_READ_USER_REGISTER u,
       BusOp.regWrite SI7021_WRITE_USER_REGISTER
         ((u &&& 0x7E) |||
           (if k = 0 then 0x00 else if k = 1 then 0x01 else if k = 2 then 0x80 else 0x81))] ∧
      ∀ i, 1 ≤ i → i ≤ 6 →
        ((u &&& 0x7E) |||
          (if k = 0 then 0x00 else if k = 1 then 0x01 else if k = 2 then 0x80
            else 0x81)).testBit i = u.testBit i := by
  constructor
  · interval_cases k <;>
      simp [setSensorResolution, resolutionBits, Nat.mod_eq_of_lt hu]
  · intro i h1 h6
    interval_cases k <;> interval_cases i <;>
      exact testBit_and_lor_mask u 0x7E _ _ (by decide) (by decide)

/-- Witness for C4 at `k = 2`, prior user-register value `0x3A`. -/
theorem setSensorResolution_table_witness :
    (2 : Nat) ≤ 3 ∧ (0x3A : Nat) < 256 ∧
      (setSensorResolution 2 0x3A =
        [BusOp.regRead SI7021_READ_USER_REGISTER 0x3A,
         BusOp.regWrite SI7021_WRITE_USER_REGISTER
           (((0x3A : Nat) &&& 0x7E) |||
             (if (2 : Nat) = 0 then 0x00 else if (2 : Nat) = 1 then 0x01
               else if (2 : Nat) = 2 then 0x80 else 0x81))] ∧
        ∀ i, 1 ≤ i → i ≤ 6 →
          (((0x3A : Nat) &&& 0x7E) |||
            (if (2 : Nat) = 0 then 0x00 else if (2 : Nat) = 1 then 0x01
              else if (2 : Nat) = 2 then 0x80 else 0x81)).testBit i =
            (0x3A : Nat).testBit i) :=
  ⟨by decide, by decide, setSensorResolution_table 2 0x3A (by decide) (by decide)⟩

/-- C9: for every `uint8_t` resolution argument outside `{1,2,3}`, the
`switch` hits the empty `default`, so `setSensorResolution` still reads the
user register and writes back `u &&& 0x7E`: bits 7 and 0 (the resolution
bits) are cleared — the resolution-0 encoding — all other bits are unchanged,
and the write transaction is still performed. -/
theorem setSensorResolution_out_of_range (r u : Nat) (hr : r < 256)
    (h1 : r ≠ 1) (h2 : r ≠ 2) (h3 : r ≠ 3) (hu : u < 256) :
    setSensorResolution r u =
      [BusOp.regRead SI7021_READ_USER_REGISTER u,
       BusOp.regWrite SI7021_WRITE_USER_REGISTER (u &&& 0x7E)] ∧
      (u &&& 0x7E).testBit 7 = false ∧
      (u &&& 0x7E).testBit 0 = false ∧
      ∀ i, 1 ≤ i → i ≤ 6 → (u &&& 0x7E).testBit i = u.testBit i := by
  refine ⟨?_, ?_, ?_, ?_⟩
  · simp [setSensorResolution, resolutionBits, Nat.mod_eq_of_lt hr,
      Nat.mod_eq_of_lt hu, h1, h2, h3]
  · rw [Nat.testBit_and, (by decide : Nat.testBit 0x7E 7 = false), Bool.and_false]
  · rw [Nat.testBit_and, (by decide : Nat.testBit 0x7E 0 = false), Bool.and_false]
  · intro i hi1 hi6
    interval_cases i <;>
      rw [Nat.testBit_and, (by decide : Nat.testBit 0x7E _ = true), Bool.and_true]

/-- Witness for C9 at resolution `7`, prior user-register value `0xFF`. -/
theorem setSensorResolution_out_of_range_witness :
    (7 : Nat) < 256 ∧ (0xFF : Nat) < 256 ∧
      (setSensorResolution 7 0xFF =
        [BusOp.regRead SI7021_READ_USER_REGISTER 0xFF,
         BusOp.regWrite SI7021_WRITE_USER_REGISTER ((0xFF : Nat) &&& 0x7E)] ∧
        ((0xFF : Nat) &&& 0x7E).testBit 7 = false ∧
        ((0xFF : Nat) &&& 0x7E).testBit 0 = false ∧
        ∀ i, 1 ≤ i → i ≤ 6 → ((0xFF : Nat) &&& 0x7E).testBit i = (0xFF : Nat).testBit i) :=
  ⟨by decide, by decide,
    setSensorResolution_out_of_range 7 0xFF (by decide) (by decide) (by decide)
      (by decide) (by decide)⟩

/-- C10: `setHeater false power` performs exactly one read and one write, both
on the user register — no transaction touches the heater-control register —
the `power` argument (and the heater-register byte) is ignored entirely, and
the value written back is the prior user-register value with bit 2 (`0x04`,
HTRE) cleared and every other bit unchanged. -/
theorem setHeater_disable (power heaterReg u : Nat) (hu : u < 256) :
    setHeater false power heaterReg u =
      [BusOp.regRead SI7021_READ_USER_REGISTER u,
       BusOp.regWrite SI7021_WRITE_USER_REGISTER (u &&& 0xFB)] ∧
      (∀ power2 heaterReg2,
        setHeater false power2 heaterReg2 u = setHeater false power heaterReg u) ∧
      (∀ v, BusOp.regRead SI7021_READ_HEATER_CONTROL_REGISTER v ∉
              setHeater false power heaterReg u ∧
            BusOp.regWrite SI7021_WRITE_HEATER_CONTROL_REGISTER v ∉
              setHeater false power heaterReg u) ∧
      (u &&& 0xFB).testBit 2 = false ∧
      ∀ i, i ≠ 2 → (u &&& 0xFB).testBit i = u.testBit i := by
  refine ⟨?_, fun _ _ => rfl, ?_, ?_, ?_⟩
  · simp [setHeater, Nat.mod_eq_of_lt hu]
  · intro v
    constructor <;>
      simp [setHeater, SI7021_READ_HEATER_CONTROL_REGISTER,
        SI7021_WRITE_HEATER_CONTROL_REGISTER, SI7021_READ_USER_REGISTER,
        SI7021_WRITE_USER_REGISTER]
  · rw [Nat.testBit_and, (by decide : Nat.testBit 0xFB 2 = false), Bool.and_false]
  · intro i hi
    by_cases hc : i < 8
    · interval_cases i
      · rw [Nat.testBit_and, (by decide : Nat.testBit 0xFB 0 = true), Bool.and_true]
      · rw [Nat.testBit_and, (by decide : Nat.testBit 0xFB 1 = true), Bool.and_true]
      · exact absurd rfl hi
      · rw [Nat.testBit_and, (by decide : Nat.testBit 0xFB 3 = true), Bool.and_true]
      · rw [Nat.testBit_and, (by decide : Nat.testBit 0xFB 4 = true), Bool.and_true]
      · rw [Nat.testBit_and, (by decide : Nat.testBit 0xFB 5 = true), Bool.and_true]
      · rw [Nat.testBit_and, (by decide : Nat.testBit 0xFB 6 = true), Bool.and_true]
      · rw [Nat.testBit_and, (by decide : Nat.testBit 0xFB 7 = true), Bool.and_true]
    · have hi8 : 8 ≤ i := Nat.le_of_not_lt hc
      rw [Nat.testBit_and, testBit_mask_of_ge u i 8 (by omega) hi8,
        testBit_mask_of_ge 0xFB i 8 (by norm_num) hi8, Bool.and_false]

/-- Witness for C10 at `power = 9`, heater byte `5`, prior user value `0x3E`. -/
theorem setHeater_disable_witness :
    (0x3E : Nat) < 256 ∧
      (setHeater false 9 5 0x3E =
        [BusOp.regRead SI7021_READ_USER_REGISTER 0x3E,
         BusOp.regWrite SI7021_WRITE_USER_REGISTER ((0x3E : Nat) &&& 0xFB)] ∧
        (∀ power2 heaterReg2,
          setHeater false power2 heaterReg2 0x3E = setHeater false 9 5 0x3E) ∧
        (∀ v, BusOp.regRead SI7021_READ_HEATER_CONTROL_REGISTER v ∉
                setHeater false 9 5 0x3E ∧
              BusOp.regWrite SI7021_WRITE_HEATER_CONTROL_REGISTER v ∉
                setHeater false 9 5 0x3E) ∧
        ((0x3E : Nat) &&& 0xFB).testBit 2 = false ∧
        ∀ i, i ≠ 2 → ((0x3E : Nat) &&& 0xFB).testBit i = (0x3E : Nat).testBit i) :=
  ⟨by decide, setHeater_disable 9 5 0x3E (by decide)⟩

/-- Disjoint OR is addition: if `b` fits in the `n` low bits that
`a * 2 ^ n` leaves clear, then `a * 2 ^ n ||| b = a * 2 ^ n + b`. -/
lemma mul_two_pow_lor_eq_add (a b n : Nat) (h : b < 2 ^ n) :
    a * 2 ^ n ||| b = a * 2 ^ n + b := by
  have hmod : (a * 2 ^ n ||| b) % 2 ^ n = b := by
    apply Nat.eq_of_testBit_eq
    intro i
    rw [Nat.testBit_mod_two_pow, Nat.testBit_lor]
    by_cases hi : i < n
    · have ha : (a * 2 ^ n).testBit i = false := by
        rw [← Nat.shiftLeft_eq, Nat.testBit_shiftLeft]
        simp [Nat.not_le.mpr hi]
      simp [hi, ha]
    · have hb : b.testBit i = false :=
        testBit_mask_of_ge b i n h (Nat.le_of_not_lt hi)
      simp [hi, hb]
  have hdiv : (a * 2 ^ n ||| b) >>> n = a := by
    apply Nat.eq_of_testBit_eq
    intro i
    rw [Nat.testBit_shiftRight, Nat.testBit_lor]
    have ha : (a * 2 ^ n).testBit (n + i) = a.testBit i := by
      rw [← Nat.shiftLeft_eq, Nat.testBit_shiftLeft]
      simp [Nat.le_add_right]
    have hb : b.testBit (n + i) = false :=
      testBit_mask_of_ge b (n + i) n h (Nat.le_add_right n i)
    rw [ha, hb, Bool.or_false]
  calc a * 2 ^ n ||| b
      = 2 ^ n * ((a * 2 ^ n ||| b) / 2 ^ n) + (a * 2 ^ n ||| b) % 2 ^ n :=
        (Nat.div_add_mod _ _).symm
    _ = 2 ^ n * a + b := by rw [← Nat.shiftRight_eq_div_pow, hdiv, hmod]
    _ = a * 2 ^ n + b := by ring

/-- The byte-consuming loop of `Si7021::getSerialNumber` (Si7021.cpp lines
149–153 and 162–166):

```c
while (Wire.available() >= 2){
    buffer = Wire.read();
    serialNo = (serialNo << 8) | buffer;
    Wire.read(); //discard checksum
}
```

`buf` is the byte buffer the transaction delivered (`Wire.available()` is the
number of bytes not yet consumed); `serialNo` is a `uint64_t`, hence the
`% 2 ^ 64` after the shift, and `buffer` a `uint8_t`, hence the `% 256`. -/
def serialAccumulate (serialNo : Nat) (buf : List Nat) : Nat :=
  match buf with
  | d :: _ :: rest => serialAccumulate (((serialNo <<< 8) % 2 ^ 64) ||| (d % 256)) rest
  | _ => serialNo

/-- Embedding of `Si7021::getSerialNumber` (Si7021.cpp lines 136–170): two command
transactions (`0xFA 0x0F` then `0xFC 0xC9`), each followed by an 8-byte read
whose bytes are folded by `serialAccumulate` into one accumulator.  `buf1` and
`buf2` are the two 8-byte response buffers. -/
def getSerialNumber (buf1 buf2 : List Nat) : Nat :=
  serialAccumulate (serialAccumulate 0 buf1) buf2

lemma serialAccumulate_cons (serialNo d c : Nat) (rest : List Nat)
    (hacc : serialNo < 2 ^ 56) (hd : d < 256) :
    serialAccumulate serialNo (d :: c :: rest) =
      serialAccumulate (serialNo * 256 + d) rest := by
  have hshift : serialNo <<< 8 = serialNo * 2 ^ 8 := Nat.shiftLeft_eq _ _
  have hlt : serialNo * 2 ^ 8 < 2 ^ 64 := by
    calc serialNo * 2 ^ 8 < 2 ^ 56 * 2 ^ 8 := by
          exact Nat.mul_lt_mul_of_lt_of_le hacc (Nat.le_refl _) (by norm_num)
    _ = 2 ^ 64 := by norm_num
  rw [serialAccumulate, hshift, Nat.mod_eq_of_lt hlt, Nat.mod_eq_of_lt hd,
    mul_two_pow_lor_eq_add serialNo d 8 (by norm_num [hd])]
  norm_num

/-- C6: for a transport delivering 16 bytes as two 8-byte reads whose byte
pairs alternate data and checksum, `getSerialNumber` returns the big-endian
concatenation of the 8 data bytes only; every checksum byte is consumed by
the loop but excluded from the result. -/
theorem getSerialNumber_big_endian
    (d0 c0 d1 c1 d2 c2 d3 c3 d4 c4 d5 c5 d6 c6 d7 c7 : Nat)
    (h0 : d0 < 256) (h1 : d1 < 256) (h2 : d2 < 256) (h3 : d3 < 256)
    (h4 : d4 < 256) (h5 : d5 < 256) (h6 : d6 < 256) (h7 : d7 < 256) :
    getSerialNumber [d0, c0, d1, c1, d2, c2, d3, c3]
        [d4, c4, d5, c5, d6, c6, d7, c7] =
      d0 * 256 ^ 7 + d1 * 256 ^ 6 + d2 * 256 ^ 5 + d3 * 256 ^ 4 +
        d4 * 256 ^ 3 + d5 * 256 ^ 2 + d6 * 256 + d7 := by
  rw [getSerialNumber,
    serialAccumulate_cons 0 d0 c0 [d1, c1, d2, c2, d3, c3] (by norm_num) h0,
    serialAccumulate_cons (0 * 256 + d0) d1 c1 [d2, c2, d3, c3] (by omega) h1,
    serialAccumulate_cons ((0 * 256 + d0) * 256 + d1) d2 c2 [d3, c3] (by omega) h2,
    serialAccumulate_cons (((0 * 256 + d0) * 256 + d1) * 256 + d2) d3 c3 []
      (by omega) h3]
  rw [show serialAccumulate
        ((((0 * 256 + d0) * 256 + d1) * 256 + d2) * 256 + d3) [] =
      (((0 * 256 + d0) * 256 + d1) * 256 + d2) * 256 + d3 from rfl]
  rw [serialAccumulate_cons _ d4 c4 [d5, c5, d6, c6, d7, c7] (by omega) h4,
    serialAccumulate_cons _ d5 c5 [d6, c6, d7, c7] (by omega) h5,
    serialAccumulate_cons _ d6 c6 [d7, c7] (by omega) h6,
    serialAccumulate_cons _ d7 c7 [] (by omega) h7]
  rw [show serialAccumulate
        ((((((((0 * 256 + d0) * 256 + d1) * 256 + d2) * 256 + d3) * 256 + d4) *
            256 + d5) * 256 + d6) * 256 + d7) [] =
      (((((((0 * 256 + d0) * 256 + d1) * 256 + d2) * 256 + d3) * 256 + d4) *
          256 + d5) * 256 + d6) * 256 + d7 from rfl]
  omega

/-- Witness for C6: data bytes `0x01` … `0x08` with checksum bytes `0xAA`. -/
theorem getSerialNumber_big_endian_witness :
    (0x01 : Nat) < 256 ∧ (0x08 : Nat) < 256 ∧
      getSerialNumber [1, 0xAA, 2, 0xAA, 3, 0xAA, 4, 0xAA]
          [5, 0xAA, 6, 0xAA, 7, 0xAA, 8, 0xAA] =
        1 * 256 ^ 7 + 2 * 256 ^ 6 + 3 * 256 ^ 5 + 4 * 256 ^ 4 +
          5 * 256 ^ 3 + 6 * 256 ^ 2 + 7 * 256 + 8 :=
  ⟨by decide, by decide,
    getSerialNumber_big_endian 1 0xAA 2 0xAA 3 0xAA 4 0xAA 5 0xAA 6 0xAA 7 0xAA 8 0xAA
      (by decide) (by decide) (by decide) (by decide)
      (by decide) (by decide) (by decide) (by decide)⟩

end Si7021
